import Mathlib

/-!
Shallow embedding of `webpack.config.js` from Kunamatata/monod.

The file is a webpack 1.x configuration script. It reads the npm
lifecycle event (`TARGET`), computes a version string (`VERSION`),
mutates `process.env.BABEL_ENV`, builds a common configuration object,
and conditionally assigns `module.exports` by merging a development or
production overlay onto the common configuration with `webpack-merge`.

Strings model the JavaScript strings verbatim; environment variables are
`Option String` (`none` = the variable is undefined in `process.env`).
The `git rev-parse HEAD` subprocess is modelled by an `Except Unit String`
parameter: `.ok s` is the stdout of a successful call (already passed
through `.toString()`), `.error ()` is a thrown error (non-zero exit,
missing tool, not a repository).
-/

namespace Monod

/-- The slice of `process.env` that `webpack.config.js` reads or writes:
`npm_lifecycle_event` (the build target), the two version overrides
`SOURCE_VERSION` and `SHA`, and `BABEL_ENV` (written on line 38). -/
structure Env where
  npm_lifecycle_event : Option String
  SOURCE_VERSION : Option String
  SHA : Option String
  BABEL_ENV : Option String
  deriving DecidableEq, Repr

/-- JavaScript truthiness of a possibly-undefined environment string:
`undefined` and the empty string are falsy, every other string is truthy.
(These are the only falsy values an `x || y` chain over
`process.env` entries and subprocess output can meet.) -/
def truthy : Option String → Bool
  | none => false
  | some s => s != ""

/-- Value of `__dirname` for the configuration file (the repository
root). Its concrete value is irrelevant to every claim; it is threaded
through the path constants exactly as `path.join` does. -/
def dirname : String := "/monod"

/-- Path constant `PATHS.app`, namely `path.join` of `__dirname` and
the app directory name. -/
def PATHS_app : String := dirname ++ "/app"

/-- Path constant `PATHS.build`, namely `path.join` of `__dirname` and
the build directory name. -/
def PATHS_build : String := dirname ++ "/build"

/-- The `VERSION` IIFE (lines 24-35):
`v = process.env.SOURCE_VERSION || process.env.SHA || childProcess.execSync(gitRevParseHead).toString()`
inside a `try`, with `v = "unknown"` in the `catch`. The `||` chain skips
falsy values (undefined or empty string); only the subprocess can throw,
so the `catch` is reached exactly when both overrides are falsy and the
subprocess fails. -/
def VERSION (env : Env) (git : Except Unit String) : String :=
  if truthy env.SOURCE_VERSION then env.SOURCE_VERSION.getD ""
  else if truthy env.SHA then env.SHA.getD ""
  else
    match git with
    | .ok out => out
    | .error _ => "unknown"

/-- Modelled from the spec: the package descriptor (`package.json`, not
under `src/`) is read only for its `name` field, used as the generated
page title. The project is named monod. No claim depends on the value. -/
def pkg_name : String := "monod"

/-- A webpack module rule (an element of `module.loaders` or
`module.preLoaders`): a test regular expression (kept as its source
text), an ordered loader-name list (`loaders`), an optional single
combined loader string (`loader`, used by the production CSS rule), and
optional `include` path scoping (`[]` = no `include` key). -/
structure Rule where
  test : String
  loaders : List String := []
  loader : Option String := none
  includes : List String := []
  deriving DecidableEq, Repr

/-- The `output` object: directory path, entry-chunk filename template,
and (production only) the non-entry chunk filename template. -/
structure Output where
  path : String
  filename : String
  chunkFilename : Option String := none
  deriving DecidableEq, Repr

/-- The `module` object: the `noParse` regex list and the two loader
lists. -/
structure ModuleSection where
  noParse : List String
  preLoaders : List Rule
  loaders : List Rule
  deriving DecidableEq, Repr

/-- A webpack `entry` value: either a named-entry object (as in the
common configuration, which maps the name app to `PATHS.app`) or an
entry array (the four-element list of the development overlay). -/
inductive EntrySpec where
  | map (entries : List (String × String))
  | list (entries : List String)
  deriving DecidableEq, Repr

/-- Number of entries in an `entry` value. -/
def EntrySpec.size : EntrySpec → Nat
  | .map es => es.length
  | .list es => es.length

/-- The plugin instantiations appearing in the configuration, with the
constructor arguments the source passes them. -/
inductive Plugin where
  | HtmlWebpackPlugin (template title favicon version appMountId : String)
  | OfflinePlugin (caches scope version cache_name : String)
      (appCacheFallback : List (String × String)) (appCacheNetwork : List String)
  | HotModuleReplacementPlugin
  | CleanPlugin (paths : List String)
  | DefinePlugin (nodeEnv : String)
  | DedupePlugin
  | OccurrenceOrderPlugin
  | UglifyJsPlugin (outputComments compressWarnings : Bool)
  | ExtractTextPlugin (filename : String) (allChunks : Bool)
  | WebpackRobots
  deriving DecidableEq, Repr

/-- A full webpack configuration object (the fields this file uses).
`devtool` and `debug` are absent (`none`) in the common configuration
and only introduced by the overlays. -/
structure Config where
  entry : EntrySpec
  resolveExtensions : List String
  output : Output
  moduleSection : ModuleSection
  postcss : List String
  node_fs : String
  devtool : Option String := none
  debug : Option Bool := none
  plugins : List Plugin
  deriving DecidableEq, Repr

/-- The common configuration (lines 41-153), parameterised by the
already-computed `VERSION` string `v`. Both plugin instantiations
truncate it with `VERSION.substring(0, 7)`. -/
def common (v : String) : Config :=
  { entry := .map [("app", PATHS_app)]
    resolveExtensions := ["", ".js", ".jsx"]
    output := { path := PATHS_build, filename := "[name].js" }
    moduleSection :=
      { noParse := ["autoit\\.js$"]
        preLoaders :=
          [ { test := "\\.jsx?$", loaders := ["eslint"], includes := [PATHS_app] } ]
        loaders :=
          [ { test := "\\.jsx?$"
              loaders := ["babel?cacheDirectory", "unlazy"]
              includes := [PATHS_app] },
            { test := "\\.(ttf|eot|svg|woff(2)?)(\\?v=.+)?$"
              loaders := ["file?name=fonts/[name].[ext]"]
              includes := [dirname ++ "/node_modules/font-awesome/fonts/",
                           dirname ++ "/node_modules/katex/dist/fonts/"] },
            { test := "\\.(ttf|eot|svg|woff(2)?)(\\?[a-z0-9]+)?$"
              loaders := ["file?name=[path][name].[ext]&context=./app"]
              includes := [PATHS_app] },
            { test := "\\.json$"
              loaders := ["file?name=[path][name].[ext]&context=./node_modules"] },
            { test := "\\.png$"
              loaders := ["file?name=[path][name].[ext]&context=./node_modules"]
              includes := [dirname ++ "/node_modules/emojione/"] } ] }
    postcss := ["autoprefixer(last 2 versions)"]
    node_fs := "empty"
    plugins :=
      [ .HtmlWebpackPlugin "index.ejs" pkg_name "app/favicon.ico" (v.take 7) "app",
        .OfflinePlugin "all" "/" (v.take 7) "monod"
          [("/", "/")] ["/documents", "*"] ] }

/-- An overlay: the partial configuration object literal passed as the
second argument of `merge(common, ...)`. Absent fields are `none` / `[]`.
Both overlays only ever contribute `module.loaders` inside `module`, so
that is the only module field an overlay carries. -/
structure Overlay where
  debug : Option Bool := none
  devtool : Option String := none
  entry : Option EntrySpec := none
  outputPath : Option String := none
  outputFilename : Option String := none
  outputChunkFilename : Option String := none
  moduleLoaders : List Rule := []
  plugins : List Plugin := []
  deriving DecidableEq, Repr

/-- Key-wise merge of two named-entry objects: overlay values replace
base values of the same key, new overlay keys are appended. -/
def mergeEntryMaps (b o : List (String × String)) : List (String × String) :=
  b.map (fun p => (p.1, ((o.lookup p.1).getD p.2))) ++
    o.filter (fun p => (b.lookup p.1).isNone)

/-- Modelled from the spec: the `merge` function is `webpack-merge`, an
external dependency whose code is not part of this repository. Per the
merge semantics stated in the spec, overlay values are deep-merged onto
the base: nested lists (`module.loaders`, `plugins`, entry arrays) are
concatenated base-first, scalar fields present in the overlay
(`devtool`, `debug`, `output` members) replace those of the base, and a
value of mismatched shape (the entry array of the development overlay
against the entry object of the base) replaces the base value. -/
def merge (c : Config) (o : Overlay) : Config :=
  { entry :=
      match c.entry, o.entry with
      | b, none => b
      | .map bs, some (.map os) => .map (mergeEntryMaps bs os)
      | .list bs, some (.list os) => .list (bs ++ os)
      | _, some ov => ov
    resolveExtensions := c.resolveExtensions
    output :=
      { path := (o.outputPath).getD c.output.path
        filename := (o.outputFilename).getD c.output.filename
        chunkFilename :=
          match o.outputChunkFilename with
          | some f => some f
          | none => c.output.chunkFilename }
    moduleSection :=
      { c.moduleSection with
          loaders := c.moduleSection.loaders ++ o.moduleLoaders }
    postcss := c.postcss
    node_fs := c.node_fs
    devtool :=
      match o.devtool with
      | some d => some d
      | none => c.devtool
    debug :=
      match o.debug with
      | some b => some b
      | none => c.debug
    plugins := c.plugins ++ o.plugins }

/-- The development overlay (lines 157-178): inline source maps, entry
array with three hot-reload bootstrap entries before the application
entry, runtime style injection, hot module replacement. -/
def devOverlay : Overlay :=
  { devtool := some "eval-source-map"
    entry := some (.list
      [ "react-hot-loader/patch",
        "webpack-dev-server/client?http://localhost:4000",
        "webpack/hot/only-dev-server",
        PATHS_app ])
    moduleLoaders :=
      [ { test := "\\.s?css$", loaders := ["style", "css", "postcss", "sass"] } ]
    plugins := [.HotModuleReplacementPlugin] }

/-- Model of `ExtractTextPlugin.extract(fallbackLoader, loader)` (an
external plugin): produces the single combined loader string for the
production CSS rule. Modelled as a tagged combination of its two
arguments; no claim depends on the concrete string shape. -/
def ExtractTextPlugin_extract (fallbackLoader loaderStr : String) : String :=
  "extract-text!" ++ fallbackLoader ++ "!" ++ loaderStr

/-- The production overlay (lines 183-235): separate source-map files,
chunk-hashed output filenames, CSS extraction, clean/define/dedupe/
occurrence-order/uglify/extract/robots plugins. -/
def buildOverlay : Overlay :=
  { debug := some false
    devtool := some "source-map"
    outputPath := some PATHS_build
    outputFilename := some "[name].[chunkhash].js"
    outputChunkFilename := some "[chunkhash].js"
    moduleLoaders :=
      [ { test := "\\.(css|scss)$"
          loader := some (ExtractTextPlugin_extract "style"
            "css?\x7b\x22discardComments\x22:\x7b\x22removeAll\x22:true\x7d\x7d!postcss!sass") } ]
    plugins :=
      [ .CleanPlugin [PATHS_build],
        .DefinePlugin "\x22production\x22",
        .DedupePlugin,
        .OccurrenceOrderPlugin,
        .UglifyJsPlugin false false,
        .ExtractTextPlugin "[name].[chunkhash].css" true,
        .WebpackRobots ] }

/-- The string Node stores when a value is assigned to a `process.env`
entry: `process.env` coerces every assigned value to a string, so
assigning an undefined `TARGET` stores the literal string "undefined". -/
def envAssign : Option String → String
  | some s => s
  | none => "undefined"

/-- The final `module.exports` as a function of `TARGET` and the computed
version string, mirroring the two sequential `if` statements (lines 156
and 182). `module.exports` starts out as the default empty exports
object (`none`); each `if` reassigns it when its condition holds. -/
def moduleExports (TARGET : Option String) (v : String) : Option Config :=
  let e0 : Option Config := none
  let e1 := if TARGET = some "dev" ∨ truthy TARGET = false
            then some (merge (common v) devOverlay) else e0
  let e2 := if TARGET = some "build"
            then some (merge (common v) buildOverlay) else e1
  e2

/-- Result of evaluating the whole module: the exported configuration
(if any) and the final process environment. -/
structure ModuleResult where
  exports : Option Config
  env : Env
  deriving DecidableEq, Repr

/-- Evaluating `webpack.config.js` top to bottom: compute `VERSION`
once, set `process.env.BABEL_ENV = TARGET` (line 38), then run the two
conditional merges. -/
def runModule (env : Env) (git : Except Unit String) : ModuleResult :=
  let TARGET := env.npm_lifecycle_event
  let v := VERSION env git
  { exports := moduleExports TARGET v
    env := { env with BABEL_ENV := some (envAssign TARGET) } }

/-- The `version` arguments of the `HtmlWebpackPlugin` instances in the
plugin list of a configuration. -/
def htmlVersions (c : Config) : List String :=
  c.plugins.filterMap fun p =>
    match p with
    | .HtmlWebpackPlugin _ _ _ v _ => some v
    | _ => none

/-- The `version` options of the `OfflinePlugin` instances in the
plugin list of a configuration. -/
def offlineVersions (c : Config) : List String :=
  c.plugins.filterMap fun p =>
    match p with
    | .OfflinePlugin _ _ v _ _ _ => some v
    | _ => none

/-- Whether the character list `needle` occurs contiguously inside the
second character list. -/
def listContainsSublist (needle : List Char) : List Char → Bool
  | [] => needle.isPrefixOf []
  | c :: rest => needle.isPrefixOf (c :: rest) || listContainsSublist needle rest

/-- Whether `needle` occurs as a substring of `hay`. -/
def containsSubstring (hay needle : String) : Bool :=
  listContainsSublist needle.data hay.data

/-- Spec-side overlay selector, written from the (amended) specification
wording for comparison with `moduleExports`: target build selects the
production merge, target dev or a falsy target selects the development
merge, and any other target selects no overlay at all (the module
exports nothing). -/
def expectedExports (TARGET : Option String) (v : String) : Option Config :=
  if TARGET = some "build" then some (merge (common v) buildOverlay)
  else if TARGET = some "dev" ∨ truthy TARGET = false
  then some (merge (common v) devOverlay)
  else none

/-- C1 (counterexample): with the lifecycle event set to start — a value
that is neither dev, nor build, nor falsy — the module exports no
configuration at all, while the claim says the development overlay would
be merged (as it is when the lifecycle event is dev). -/
theorem C1_counterexample :
    (runModule ⟨some "start", none, none, none⟩ (.ok "abc")).exports = none ∧
      (runModule ⟨some "dev", none, none, none⟩ (.ok "abc")).exports ≠ none := by
  exact ⟨rfl, by decide⟩

/-- C1 (amended): the mode build selects the production overlay; the
mode dev, an unset mode, and the empty-string mode select the
development overlay; every other value selects no overlay (the module
exports nothing). The development and production conditions are mutually
exclusive, but the two overlays are not collectively exhaustive. -/
theorem C1_overlay_selection (TARGET : Option String) (v : String) :
    moduleExports TARGET v = expectedExports TARGET v ∧
      ¬((TARGET = some "dev" ∨ truthy TARGET = false) ∧ TARGET = some "build") := by
  constructor
  · rfl
  · rintro ⟨hdev | hfalsy, hbuild⟩
    · rw [hbuild] at hdev
      exact absurd hdev (by decide)
    · rw [hbuild] at hfalsy
      exact absurd hfalsy (by decide)

/-- C2: if the override `SOURCE_VERSION` is set (to a truthy value, i.e.
nonempty — the empty string counts as unset throughout, matching the
JavaScript `||` chain), `VERSION` is exactly that value regardless of
`SHA` and of the git subprocess; and if only `SHA` is set, `VERSION` is
exactly the `SHA` value regardless of the git subprocess. -/
theorem C2_version_priority :
    (∀ (env : Env) (git : Except Unit String) (a : String),
        env.SOURCE_VERSION = some a → a ≠ "" → VERSION env git = a) ∧
    (∀ (env : Env) (git : Except Unit String) (b : String),
        (env.SOURCE_VERSION = none ∨ env.SOURCE_VERSION = some "") →
        env.SHA = some b → b ≠ "" → VERSION env git = b) := by
  constructor
  · intro env git a ha hne
    simp [VERSION, truthy, ha, hne]
  · intro env git b hA hb hne
    rcases hA with hA | hA <;> simp [VERSION, truthy, hA, hb, hne]

/-- C2 (witness): concrete instances of both priority conjuncts. -/
theorem C2_version_priority_witness :
    VERSION ⟨none, some "v1.2", some "shaval", none⟩ (.error ()) = "v1.2" ∧
      VERSION ⟨none, none, some "shaval", none⟩ (.error ()) = "shaval" :=
  ⟨C2_version_priority.1 ⟨none, some "v1.2", some "shaval", none⟩ (.error ())
      "v1.2" rfl (by decide),
    C2_version_priority.2 ⟨none, none, some "shaval", none⟩ (.error ())
      "shaval" (Or.inl rfl) rfl (by decide)⟩

/-- C3: merging an overlay onto a base concatenates the list-valued
fields — module loader rules and plugins — base elements first, overlay
elements after, dropping and duplicating nothing, while a scalar
`devtool` present in the overlay takes the overlay value. -/
theorem C3_merge_lists_and_scalars (c : Config) (o : Overlay) :
    (merge c o).moduleSection.loaders = c.moduleSection.loaders ++ o.moduleLoaders ∧
    (merge c o).plugins = c.plugins ++ o.plugins ∧
    ∀ d, o.devtool = some d → (merge c o).devtool = some d := by
  refine ⟨rfl, rfl, ?_⟩
  intro d hd
  simp [merge, hd]

/-- C3 (witness): the merge equations instantiated at the common
configuration and the production overlay. -/
theorem C3_merge_lists_and_scalars_witness :
    (merge (common "v") buildOverlay).plugins
        = (common "v").plugins ++ buildOverlay.plugins ∧
      (merge (common "v") buildOverlay).devtool = some "source-map" :=
  ⟨(C3_merge_lists_and_scalars (common "v") buildOverlay).2.1,
    (C3_merge_lists_and_scalars (common "v") buildOverlay).2.2 "source-map" rfl⟩

/-- C4: when neither override variable is set and the git subprocess
fails, `VERSION` is the literal string unknown; the failure is caught
inside the IIFE (the embedding is a total function, so no error reaches
the caller). -/
theorem C4_version_fallback_unknown (env : Env)
    (hA : env.SOURCE_VERSION = none) (hB : env.SHA = none) :
    VERSION env (.error ()) = "unknown" := by
  simp [VERSION, truthy, hA, hB]

/-- C4 (witness): the fallback at a fully concrete environment. -/
theorem C4_version_fallback_unknown_witness :
    VERSION ⟨none, none, none, none⟩ (.error ()) = "unknown" :=
  C4_version_fallback_unknown ⟨none, none, none, none⟩ rfl rfl

/-- C5: when neither override variable is set and the git subprocess
succeeds with output abcdef1234567890, `VERSION` is that full string,
its 7-character truncation is abcdef1, and both the HTML plugin and the
offline plugin of the common configuration receive exactly abcdef1. -/
theorem C5_version_git_success (env : Env)
    (hA : env.SOURCE_VERSION = none) (hB : env.SHA = none) :
    VERSION env (.ok "abcdef1234567890") = "abcdef1234567890" ∧
    (VERSION env (.ok "abcdef1234567890")).take 7 = "abcdef1" ∧
    htmlVersions (common (VERSION env (.ok "abcdef1234567890"))) = ["abcdef1"] ∧
    offlineVersions (common (VERSION env (.ok "abcdef1234567890"))) = ["abcdef1"] := by
  have h : VERSION env (.ok "abcdef1234567890") = "abcdef1234567890" := by
    simp [VERSION, truthy, hA, hB]
  rw [h]
  exact ⟨rfl, rfl, rfl, rfl⟩

/-- C5 (witness): the git-success path at a fully concrete environment. -/
theorem C5_version_git_success_witness :
    VERSION ⟨some "dev", none, none, none⟩ (.ok "abcdef1234567890")
        = "abcdef1234567890" ∧
      (VERSION ⟨some "dev", none, none, none⟩ (.ok "abcdef1234567890")).take 7
        = "abcdef1" ∧
      htmlVersions (common (VERSION ⟨some "dev", none, none, none⟩
        (.ok "abcdef1234567890"))) = ["abcdef1"] ∧
      offlineVersions (common (VERSION ⟨some "dev", none, none, none⟩
        (.ok "abcdef1234567890"))) = ["abcdef1"] :=
  C5_version_git_success ⟨some "dev", none, none, none⟩ rfl rfl

/-- C6: the development merge yields the entry array whose three
hot-reload bootstrap entries precede the application entry (so its size
is the base size plus three) and sets devtool to eval-source-map; an
unset lifecycle event exports exactly the same configuration as the
explicit dev lifecycle event, namely that development merge. -/
theorem C6_dev_configuration (v : String) (env : Env) (git : Except Unit String) :
    (merge (common v) devOverlay).entry =
      .list ["react-hot-loader/patch",
             "webpack-dev-server/client?http://localhost:4000",
             "webpack/hot/only-dev-server", PATHS_app] ∧
    EntrySpec.size (merge (common v) devOverlay).entry
        = EntrySpec.size (common v).entry + 3 ∧
    (merge (common v) devOverlay).devtool = some "eval-source-map" ∧
    (runModule { env with npm_lifecycle_event := none } git).exports
        = (runModule { env with npm_lifecycle_event := some "dev" } git).exports ∧
    (runModule { env with npm_lifecycle_event := some "dev" } git).exports
        = some (merge (common (VERSION env git)) devOverlay) :=
  ⟨rfl, rfl, rfl, rfl, rfl⟩

/-- C7: the production merge yields output filename templates containing
the chunkhash placeholder, both for the entry chunk and for non-entry
chunks, and strictly lengthens the plugin list of the base. -/
theorem C7_build_configuration (v : String) :
    containsSubstring (merge (common v) buildOverlay).output.filename
        "[chunkhash]" = true ∧
    ((merge (common v) buildOverlay).output.chunkFilename.map
        (fun f => containsSubstring f "[chunkhash]")) = some true ∧
    (common v).plugins.length < (merge (common v) buildOverlay).plugins.length := by
  refine ⟨?_, ?_, ?_⟩
  · show containsSubstring "[name].[chunkhash].js" "[chunkhash]" = true
    decide
  · show ((some "[chunkhash].js").map fun f => containsSubstring f "[chunkhash]")
        = some true
    decide
  · show 2 < 9
    decide

/-- C8 (counterexample): evaluating the module does not leave the
process environment unchanged — with the lifecycle event build and
`BABEL_ENV` initially unset, the resulting environment differs from the
initial one (`BABEL_ENV` has been written). -/
theorem C8_counterexample :
    (runModule ⟨some "build", none, none, none⟩ (.ok "x")).env
      ≠ ⟨some "build", none, none, none⟩ := by
  decide

/-- C8 (amended): building the configuration performs no observable
effect other than returning the module result and writing exactly one
environment entry — `BABEL_ENV` is set to the string form of the target
(the string undefined when the target is unset); every other
environment entry is unchanged. -/
theorem C8_only_babel_env_written (env : Env) (git : Except Unit String) :
    (runModule env git).env
        = { env with BABEL_ENV := some (envAssign env.npm_lifecycle_event) } ∧
    (runModule env git).env.npm_lifecycle_event = env.npm_lifecycle_event ∧
    (runModule env git).env.SOURCE_VERSION = env.SOURCE_VERSION ∧
    (runModule env git).env.SHA = env.SHA :=
  ⟨rfl, rfl, rfl, rfl⟩

/-- C9: an override set to the empty string behaves exactly as an unset
override — `VERSION` is unchanged when an empty `SOURCE_VERSION` or an
empty `SHA` is replaced by an absent one, and with an empty
`SOURCE_VERSION` the resolution falls through to a nonempty `SHA`
instead of returning the empty string. -/
theorem C9_empty_override_as_unset (env : Env) (git : Except Unit String) :
    VERSION { env with SOURCE_VERSION := some "" } git
        = VERSION { env with SOURCE_VERSION := none } git ∧
    VERSION { env with SHA := some "" } git
        = VERSION { env with SHA := none } git ∧
    VERSION { env with SOURCE_VERSION := some "", SHA := some "x" } git = "x" :=
  ⟨rfl, rfl, rfl⟩

/-- C10: whatever configuration the module exports, the HTML plugin and
the offline plugin carry the same version value, namely the 7-character
truncation of the single `VERSION` computation — the one place the git
subprocess result enters the configuration. -/
theorem C10_single_version (env : Env) (git : Except Unit String) (c : Config)
    (h : (runModule env git).exports = some c) :
    htmlVersions c = [(VERSION env git).take 7] ∧
      offlineVersions c = [(VERSION env git).take 7] := by
  unfold runModule moduleExports at h
  dsimp only at h
  split at h
  · rw [Option.some_inj] at h
    subst h
    exact ⟨rfl, rfl⟩
  · split at h
    · rw [Option.some_inj] at h
      subst h
      exact ⟨rfl, rfl⟩
    · exact absurd h (by simp)

/-- C10 (witness): the exported development configuration of a concrete
environment carries the truncated version in both plugins. -/
theorem C10_single_version_witness :
    htmlVersions (merge (common "unknown") devOverlay)
        = [(VERSION ⟨none, none, none, none⟩ (.error ())).take 7] ∧
      offlineVersions (merge (common "unknown") devOverlay)
        = [(VERSION ⟨none, none, none, none⟩ (.error ())).take 7] :=
  C10_single_version ⟨none, none, none, none⟩ (.error ())
    (merge (common "unknown") devOverlay) rfl

end Monod
